import Mathlib

/-!
Verification of the PersonaRAG document retrieval core (`src/ss/rag_system.py`)
and its prompt-assembly entry point (`src/ss/prompt_builder.py`).

Strings are modelled as `List Char` (Python `str` over its code points);
Python floats are modelled as exact rationals `ℚ`; Python dicts keyed by
document id are modelled as insertion-ordered association lists, matching
CPython's insertion-ordered dict semantics.  Fallible Python code (attribute
access on a missing dataclass field) is modelled with `Except`.
-/

attribute [local semireducible] Rat.ofScientific Rat.mul Rat.inv Rat.add Rat.sub

set_option maxRecDepth 40000

/-! ### Python string primitives -/

/-- `str.lower` on one character (ASCII, which covers every string this
program manipulates). -/
def pyCharLower (c : Char) : Char :=
  if 'A' ≤ c ∧ c ≤ 'Z' then Char.ofNat (c.toNat + 32) else c

/-- `str.lower`. -/
def pyLower (s : List Char) : List Char := s.map pyCharLower

/-- The characters Python's no-argument `str.split` treats as (ASCII)
whitespace. -/
def isPySpace (c : Char) : Bool :=
  c = ' ' || c = '\t' || c = '\n' || c = '\x0d' || c = '\x0b' || c = '\x0c'

/-- Helper for `pySplit`: `acc` is the current in-progress word, reversed. -/
def pySplitAux : List Char → List Char → List (List Char)
  | [], acc => if acc.isEmpty then [] else [acc.reverse]
  | c :: cs, acc =>
    if isPySpace c then
      if acc.isEmpty then pySplitAux cs [] else acc.reverse :: pySplitAux cs []
    else
      pySplitAux cs (c :: acc)

/-- Python's no-argument `str.split`: split on runs of whitespace, dropping
empty pieces. -/
def pySplit (s : List Char) : List (List Char) := pySplitAux s []

/-- `str.strip(chars)`: drop leading and trailing characters that belong to
`cs`. -/
def pyStrip (cs : List Char) (s : List Char) : List Char :=
  ((s.dropWhile (fun c => cs.contains c)).reverse.dropWhile
    (fun c => cs.contains c)).reverse

/-- Python's substring test `p in t`. -/
def pyContains (p : List Char) : List Char → Bool
  | [] => p.isEmpty
  | c :: rest => p.isPrefixOf (c :: rest) || pyContains p rest

/-- Convert a Lean string literal to the `List Char` representation. -/
def lc (s : String) : List Char := s.data

/-! ### Data model (`rag_system.py`) -/

/-- `DocumentType` enum: types of documents in the knowledge base. -/
inductive DocumentType where
  | policy
  | technical
  | business
  | training
  | general
deriving DecidableEq, Repr

/-- `DocumentType.value` (the string payload of the Python enum member). -/
def DocumentType.value : DocumentType → String
  | .policy => "policy"
  | .technical => "technical"
  | .business => "business"
  | .training => "training"
  | .general => "general"

/-- A metadata value: the scalars/lists appearing in the sample documents'
metadata dicts. -/
inductive MetaVal where
  | s (v : String)
  | i (v : Int)
  | b (v : Bool)
  | strs (v : List String)
deriving DecidableEq, Repr

/-- `Document` dataclass: a document in the knowledge base.  `relevance_score`
defaults to `0.0`; Python floats are modelled as exact rationals. -/
structure Document where
  id : String
  content : String
  doc_type : DocumentType
  metadata : List (String × MetaVal)
  relevance_score : ℚ := 0
deriving DecidableEq, Repr

/-- The retrieval metadata dict built by `retrieve_documents`: either
`{"reason": code}` (empty scored set) or `{"avg_relevance": value}`. -/
inductive RetrievalMetadata where
  | reason (code : String)
  | avg_relevance (value : ℚ)
deriving DecidableEq, Repr

/-- `RetrievalResult` dataclass: result of a document retrieval operation. -/
structure RetrievalResult where
  documents : List Document
  query : String
  persona : String
  total_retrieved : Nat
  retrieval_metadata : RetrievalMetadata
deriving DecidableEq, Repr

/-! ### Persona filter configuration (`PersonaDocumentFilter.__init__`) -/

/-- One persona's entry in `PersonaDocumentFilter.persona_filters`. -/
structure PersonaFilter where
  preferred_types : List DocumentType
  content_keywords : List String
  exclude_keywords : List String
  max_documents : Nat
  min_relevance : ℚ
deriving DecidableEq, Repr

def executiveFilter : PersonaFilter where
  preferred_types := [.business, .policy]
  content_keywords := ["revenue", "cost", "roi", "strategy", "risk", "impact",
    "challenges", "industry"]
  exclude_keywords := ["implementation", "code", "technical", "debug"]
  max_documents := 3
  min_relevance := 0.3

def developerFilter : PersonaFilter where
  preferred_types := [.technical, .training, .business]
  content_keywords := ["code", "api", "system", "implementation",
    "architecture", "business", "trends", "challenges", "industry"]
  exclude_keywords := ["executive", "financial", "legal"]
  max_documents := 5
  min_relevance := 0.4

def hrSpecialistFilter : PersonaFilter where
  preferred_types := [.policy, .training, .general, .business]
  content_keywords := ["policy", "employee", "compliance", "process",
    "procedure", "business", "trends", "challenges", "industry"]
  exclude_keywords := ["code", "technical", "revenue", "financial"]
  max_documents := 4
  min_relevance := 0.3

def studentFilter : PersonaFilter where
  preferred_types := [.training, .general, .technical, .business]
  content_keywords := ["learn", "tutorial", "guide", "example", "process",
    "business", "trends", "takeaways", "key", "challenges", "industry"]
  exclude_keywords := ["executive", "financial", "legal"]
  max_documents := 3
  min_relevance := 0.2

def generalFilter : PersonaFilter where
  preferred_types := [.general, .business, .policy]
  content_keywords := ["company", "culture", "team", "business", "trends",
    "challenges", "industry"]
  exclude_keywords := ["code", "implementation", "debug"]
  max_documents := 4
  min_relevance := 0.25

/-- The `persona_filters` dict: lookup by persona name (`None` models a
missing key, i.e. an unknown persona). -/
def persona_filters (persona : String) : Option PersonaFilter :=
  if persona = "Executive" then some executiveFilter
  else if persona = "Developer" then some developerFilter
  else if persona = "HR Specialist" then some hrSpecialistFilter
  else if persona = "Student" then some studentFilter
  else if persona = "General" then some generalFilter
  else none

/-! ### Relevance scoring (`DocumentRetriever.calculate_relevance`) -/

/-- The `common_words` stop-word set of `calculate_relevance`. -/
def commonWords : List (List Char) :=
  [lc "the", lc "is", lc "are", lc "a", lc "an", lc "and", lc "or", lc "but",
   lc "in", lc "on", lc "at", lc "to", lc "for", lc "of", lc "with", lc "by",
   lc "when", lc "where", lc "how", lc "why", lc "what", lc "our", lc "your",
   lc "their", lc "we", lc "they", lc "you", lc "me", lc "us", lc "them"]

/-- `query_terms`: split the lowercased query, keep the tokens that are not
stop words and whose `'?.!'`-stripped form has length greater than 2, and
return those stripped forms. -/
def queryTerms (queryLower : List Char) : List (List Char) :=
  (pySplit queryLower).filterMap fun term =>
    if commonWords.contains term then none
    else
      let stripped := pyStrip (lc "?.!") term
      if stripped.length > 2 then some stripped else none

/-- Insert into a Python set modelled as a duplicate-free list (first-insertion
order; iteration order never matters below since only membership counts are
used). -/
def setInsert (x : List Char) (s : List (List Char)) : List (List Char) :=
  if x ∈ s then s else s ++ [x]

/-- The pluralization variant added for a query term: `ies → y`, else trailing
`s` removed, else `s` appended. -/
def pluralVariant (t : List Char) : List Char :=
  if (lc "ies").isSuffixOf t then t.take (t.length - 3) ++ ['y']
  else if (lc "s").isSuffixOf t then t.dropLast
  else t ++ ['s']

/-- `expanded_terms`: the set of query terms together with each term's
pluralization variant. -/
def expandedTerms (qts : List (List Char)) : List (List Char) :=
  qts.foldl (fun s t => setInsert (pluralVariant t) s)
    (qts.foldl (fun s t => setInsert t s) [])

/-- One term's contribution to `(exact_matches, partial_matches)`: an exact
(space-delimited) occurrence adds 2 to the first component, any other
substring occurrence adds 1 to the second. -/
def countMatches (terms : List (List Char)) (docLower : List Char) :
    Nat × Nat :=
  terms.foldl
    (fun acc term =>
      if pyContains term docLower then
        if pyContains (' ' :: term ++ [' ']) (' ' :: docLower ++ [' '])
            || (term ++ [' ']).isPrefixOf docLower
            || (' ' :: term).isSuffixOf docLower then
          (acc.1 + 2, acc.2)
        else
          (acc.1, acc.2 + 1)
      else acc)
    (0, 0)

/-- `total_matches = exact_matches + partial_matches`. -/
def totalMatches (terms : List (List Char)) (docLower : List Char) : Nat :=
  (countMatches terms docLower).1 + (countMatches terms docLower).2

/-- `query_coverage = total_matches / (len(expanded_terms) * 2)`. -/
def queryCoverage (terms : List (List Char)) (docLower : List Char) : ℚ :=
  (totalMatches terms docLower : ℚ) / ((terms.length : ℚ) * 2)

/-- `total_doc_words = len(doc_lower.split())`. -/
def docWordCount (docLower : List Char) : Nat := (pySplit docLower).length

/-- `matched_density = total_matches / total_doc_words`. -/
def matchedDensity (terms : List (List Char)) (docLower : List Char) : ℚ :=
  (totalMatches terms docLower : ℚ) / (docWordCount docLower : ℚ)

/-- The hand-tuned topic bonus table of `calculate_relevance`. -/
def topicBonus (queryLower docLower : List Char) : ℚ :=
  (if pyContains (lc "authentication") queryLower
      && pyContains (lc "authentication") docLower then (0.5 : ℚ) else 0)
  + (if pyContains (lc "system") queryLower
      && pyContains (lc "system") docLower then (0.3 : ℚ) else 0)
  + (if pyContains (lc "jwt") queryLower
      && pyContains (lc "jwt") docLower then (0.4 : ℚ) else 0)
  + (if pyContains (lc "token") queryLower
      && pyContains (lc "token") docLower then (0.3 : ℚ) else 0)
  + (if pyContains (lc "cybersecurity") queryLower
      && pyContains (lc "cybersecurity") docLower then (0.2 : ℚ) else 0)

/-- `keyword_bonus`: `+0.1` for every persona content keyword found (lowered)
in the document.  An unknown persona contributes the empty keyword list
(`persona_filters.get(persona, {})` followed by `.get("content_keywords", [])`). -/
def keywordBonus (persona : String) (docLower : List Char) : ℚ :=
  (((persona_filters persona).map PersonaFilter.content_keywords).getD []).foldl
    (fun acc kw => if pyContains (pyLower (lc kw)) docLower then acc + 0.1 else acc)
    0

/-- `type_bonus`: `+0.2` when the document's type is among the persona's
preferred types (empty list for an unknown persona). -/
def typeBonus (persona : String) (docType : DocumentType) : ℚ :=
  if docType ∈ (((persona_filters persona).map PersonaFilter.preferred_types).getD [])
  then 0.2 else 0

/-- `DocumentRetriever.calculate_relevance`: relevance score of a document for
a query under a persona.  Mirrors the source's early returns as nested
if-then-else. -/
def calculate_relevance (document : Document) (query : String)
    (persona : String) : ℚ :=
  let queryLower := pyLower (lc query)
  let docLower := pyLower (lc document.content)
  let terms := expandedTerms (queryTerms queryLower)
  if terms.isEmpty then 0
  else if queryCoverage terms docLower < 0.3 then 0
  else if docWordCount docLower = 0 then 0
  else if matchedDensity terms docLower < 0.01 then 0
  else
    min (queryCoverage terms docLower * 0.4 + matchedDensity terms docLower * 0.2
      + topicBonus queryLower docLower + keywordBonus persona docLower
      + typeBonus persona document.doc_type) 1

/-! ### Document store (`DocumentStore`) -/

/-- `DocumentStore`: an in-memory store whose `documents` dict (keyed by
document id) is modelled as an insertion-ordered association list. -/
structure DocumentStore where
  documents : List (String × Document)
deriving DecidableEq, Repr

/-- `dict[k] = v` on an insertion-ordered dict: replace the value at an
existing key in place, otherwise append the new entry. -/
def dictSet (m : List (String × Document)) (k : String) (v : Document) :
    List (String × Document) :=
  match m with
  | [] => [(k, v)]
  | (k0, v0) :: rest =>
    if k0 = k then (k0, v) :: rest else (k0, v0) :: dictSet rest k v

/-- `DocumentStore.add_document`: `self.documents[document.id] = document`. -/
def add_document (store : DocumentStore) (document : Document) :
    DocumentStore :=
  ⟨dictSet store.documents document.id document⟩

/-- `DocumentStore.get_document`: `self.documents.get(doc_id)`. -/
def get_document (store : DocumentStore) (doc_id : String) : Option Document :=
  (store.documents.find? fun p => p.1 = doc_id).map Prod.snd

/-- `DocumentStore.get_all_documents`: `list(self.documents.values())`. -/
def get_all_documents (store : DocumentStore) : List Document :=
  store.documents.map Prod.snd

/-! ### Sample corpus (`DocumentStore._initialize_sample_documents`) -/

def policyDoc : Document where
  id := "policy_001"
  content := "Remote Work Policy: Employees may work remotely up to 3 days per week with manager approval. This policy supports work-life balance while maintaining team collaboration. All remote work must be logged in the time tracking system."
  doc_type := .policy
  metadata := [("department", .s "HR"), ("effective_date", .s "2024-01-01"),
    ("priority", .s "high")]

def techDoc : Document where
  id := "tech_001"
  content := "Authentication System: The system uses JWT tokens for authentication. Tokens are generated server-side using a secret key and contain user claims. The token is sent in the Authorization header as 'Bearer <token>'. Tokens expire after 24 hours and must be refreshed using the refresh endpoint."
  doc_type := .technical
  metadata := [("system", .s "auth"), ("complexity", .s "medium"),
    ("dependencies", .strs ["JWT", "OAuth2"])]

def businessDoc : Document where
  id := "business_001"
  content := "Q3 Financial Results: Revenue increased by 15% year-over-year to $2.5M. Customer acquisition cost decreased by 8% while retention improved to 92%. The new product line contributed 30% of total revenue with strong market adoption."
  doc_type := .business
  metadata := [("quarter", .s "Q3"), ("year", .s "2024"),
    ("department", .s "Finance")]

def trendsDoc : Document where
  id := "trends_001"
  content := "Q1 2025 Business Trends: AI adoption accelerating across enterprises with 67% increasing investment. Remote work hybrid models becoming standard with 3-4 days office requirement. Supply chain diversification priority due to geopolitical risks. Sustainability reporting now mandatory for public companies. Cybersecurity budgets increasing by 25% YoY. Key takeaways include AI transformation, hybrid work adoption, and risk management priorities."
  doc_type := .business
  metadata := [("quarter", .s "Q1"), ("year", .s "2025"),
    ("category", .s "trends")]

def trainingDoc : Document where
  id := "training_001"
  content := "Onboarding Process: New employees complete a 2-week onboarding program. Week 1 covers company policies, tools training, and team introductions. Week 2 focuses on role-specific training and project assignments. Each new hire is assigned a mentor for the first 90 days."
  doc_type := .training
  metadata := [("duration", .s "2 weeks"), ("target", .s "new_hires"),
    ("required", .b true)]

def generalDoc : Document where
  id := "general_001"
  content := "Company Culture: We value innovation, collaboration, and continuous learning. Regular team meetings, hackathons, and knowledge sharing sessions are encouraged. The company supports professional development with annual training budgets."
  doc_type := .general
  metadata := [("category", .s "culture"), ("audience", .s "all_employees")]

def challengesDoc : Document where
  id := "challenges_001"
  content := "Industry Challenges: The technology sector faces significant challenges including talent shortages in AI and cybersecurity fields, increasing regulatory compliance requirements, and pressure to adopt sustainable practices. Companies struggle with digital transformation costs while maintaining legacy system compatibility. Competition for skilled workers has increased salaries by 20% YoY. Data privacy regulations like GDPR and CCPA require significant investment in compliance infrastructure. Supply chain disruptions have increased operational costs by 15%. Customer expectations for 24/7 service require major infrastructure investments."
  doc_type := .business
  metadata := [("category", .s "challenges"), ("industry", .s "technology"),
    ("year", .s "2024")]

/-- The list `sample_docs` of `_initialize_sample_documents`. -/
def sampleDocs : List Document :=
  [policyDoc, techDoc, businessDoc, trendsDoc, trainingDoc, generalDoc,
   challengesDoc]

/-- A fresh `DocumentStore()`: the sample documents inserted in order. -/
def sampleStore : DocumentStore :=
  sampleDocs.foldl add_document ⟨[]⟩

/-! ### Persona filtering (`PersonaDocumentFilter.filter_documents`) -/

/-- Whether any persona exclude-keyword occurs (lowered) in the document's
lowered content. -/
def excludedByKeyword (f : PersonaFilter) (doc : Document) : Bool :=
  f.exclude_keywords.any fun kw =>
    pyContains (pyLower (lc kw)) (pyLower (lc doc.content))

/-- The per-document acceptance test of the `filter_documents` loop:
a document is kept unless (its type is not preferred and its score is
below 0.7), or an exclude-keyword occurs, or its score is below the
persona's minimum relevance. -/
def passesPersonaChecks (f : PersonaFilter) (doc : Document) : Bool :=
  !(!(decide (doc.doc_type ∈ f.preferred_types))
      && decide (doc.relevance_score < 0.7))
  && !(excludedByKeyword f doc)
  && !(decide (doc.relevance_score < f.min_relevance))

/-- Insert a document into a list already sorted by descending
`relevance_score`, before the first strictly smaller score (stable, matching
Python's stable `list.sort(key=..., reverse=True)`). -/
def insertByScoreDesc (d : Document) : List Document → List Document
  | [] => [d]
  | e :: es =>
    if d.relevance_score ≥ e.relevance_score then d :: e :: es
    else e :: insertByScoreDesc d es

/-- Stable sort by descending `relevance_score`
(`filtered_docs.sort(key=lambda x: x.relevance_score, reverse=True)`). -/
def sortByScoreDesc : List Document → List Document
  | [] => []
  | d :: ds => insertByScoreDesc d (sortByScoreDesc ds)

/-- `PersonaDocumentFilter.filter_documents`: unknown personas pass through
unchanged; known personas keep the documents passing the three checks, sorted
by descending relevance and truncated to `max_documents`. -/
def filter_documents (documents : List Document) (persona : String) :
    List Document :=
  match persona_filters persona with
  | none => documents
  | some f =>
    (sortByScoreDesc (documents.filter (passesPersonaChecks f))).take
      f.max_documents

/-! ### Retrieval (`DocumentRetriever.retrieve_documents`) -/

/-- The `scored_docs` list: every stored document rescored for the query (the
source writes the score into the mutable `relevance_score` field; the model
returns updated copies), keeping those scoring strictly above the `0.1`
floor. -/
def scoredDocs (store : DocumentStore) (query : String) (persona : String) :
    List Document :=
  ((get_all_documents store).map fun d =>
    { d with relevance_score := calculate_relevance d query persona }).filter
    fun d => decide (d.relevance_score > 0.1)

/-- `DocumentRetriever.retrieve_documents`. -/
def retrieve_documents (store : DocumentStore) (query : String)
    (persona : String) (top_k : Nat := 10) : RetrievalResult :=
  let scored := scoredDocs store query persona
  if scored.isEmpty then
    { documents := []
      query := query
      persona := persona
      total_retrieved := 0
      retrieval_metadata := .reason "no_relevant_documents" }
  else
    let sorted := sortByScoreDesc scored
    let filtered := filter_documents (sorted.take top_k) persona
    { documents := filtered
      query := query
      persona := persona
      total_retrieved := filtered.length
      retrieval_metadata := .avg_relevance
        (if filtered.isEmpty then 0
         else (filtered.foldl (fun acc d => acc + d.relevance_score) 0)
           / (filtered.length : ℚ)) }

/-! ### Personas and role prompts (`personarag.py`, `role_prompts.py`) -/

/-- The `Persona` enum of `personarag.py`. -/
inductive Persona where
  | EXECUTIVE
  | DEVELOPER
  | HR_SPECIALIST
  | STUDENT
  | GENERAL
deriving DecidableEq, Repr

/-- `Persona.value`. -/
def Persona.value : Persona → String
  | .EXECUTIVE => "Executive"
  | .DEVELOPER => "Developer"
  | .HR_SPECIALIST => "HR Specialist"
  | .STUDENT => "Student"
  | .GENERAL => "General"

/-- The parallel `PersonaType` enum of `role_prompts.py`. -/
inductive PersonaType where
  | EXECUTIVE
  | DEVELOPER
  | HR_SPECIALIST
  | STUDENT
  | GENERAL
deriving DecidableEq, Repr

/-- `PersonaType.value`. -/
def PersonaType.value : PersonaType → String
  | .EXECUTIVE => "Executive"
  | .DEVELOPER => "Developer"
  | .HR_SPECIALIST => "HR Specialist"
  | .STUDENT => "Student"
  | .GENERAL => "General"

/-- The `persona_mapping` dict of `CompletePromptBuilder.__init__`. -/
def persona_mapping : Persona → PersonaType
  | .EXECUTIVE => .EXECUTIVE
  | .DEVELOPER => .DEVELOPER
  | .HR_SPECIALIST => .HR_SPECIALIST
  | .STUDENT => .STUDENT
  | .GENERAL => .GENERAL

/-- One persona's entry in `RolePromptExtensions.role_extensions`. -/
structure RoleExtension where
  system_prompt : List String
  answer_style : List String
  tone_guidelines : List String
  content_filters : List String
  response_format : List String

/-- `RolePromptExtensions._initialize_role_extensions`, looked up by
persona type (the dict is total on `PersonaType`). -/
def role_extensions : PersonaType → RoleExtension
  | .EXECUTIVE =>
    { system_prompt :=
        ["You are PersonaRAG acting as an Executive-level assistant.",
         "Your task:",
         "1. Carefully understand the user's specific question.",
         "2. Identify the main topic of the question (policy, goals, strategy, technology, etc.).",
         "3. Answer the question using retrieved documents ONLY.",
         "4. Present the answer in an executive style:",
         "   - Strategic",
         "   - High-level",
         "   - Business-focused",
         "   - No technical details",
         "5. Do NOT reuse generic phrases.",
         "6. Ensure each answer is specific to the question asked.",
         "If documents do not contain the answer, clearly state that information is not available."]
      answer_style :=
        ["High-level strategic summary",
         "Focus on ROI, risks, and business impact",
         "Avoid technical implementation details",
         "Keep responses concise and decision-oriented",
         "Include competitive implications when relevant"]
      tone_guidelines :=
        ["Strategic and forward-thinking",
         "Business-focused and results-oriented",
         "Confident and authoritative",
         "Avoid technical jargon and acronyms",
         "Use business metrics and KPIs"]
      content_filters :=
        ["Remove low-level technical details",
         "Focus on business outcomes and impact",
         "Emphasize competitive advantages",
         "Include cost/benefit analysis",
         "Highlight strategic alignment"]
      response_format :=
        ["Start with executive summary",
         "Follow with key implications",
         "End with recommendation or next steps"] }
  | .DEVELOPER =>
    { system_prompt :=
        ["You are PersonaRAG acting as a Developer-level assistant.",
         "Your task:",
         "1. Carefully understand the user's specific technical question.",
         "2. Identify the main technical topic (API, database, architecture, security, etc.).",
         "3. Answer the question using retrieved documents ONLY.",
         "4. Present the answer in a developer style:",
         "   - Technical and detailed",
         "   - Implementation-focused",
         "   - Include code examples when relevant",
         "5. Do NOT reuse generic phrases.",
         "6. Ensure each answer is specific to the technical question asked.",
         "If documents do not contain the answer, clearly state that technical information is not available."]
      answer_style :=
        ["Technical and detailed explanations",
         "Use precise industry terminology",
         "Provide step-by-step implementation guidance",
         "Include code examples and architectural patterns",
         "Reference best practices and design patterns"]
      tone_guidelines :=
        ["Technical and precise",
         "Practical and implementation-focused",
         "Problem-solving oriented",
         "Use correct technical terminology",
         "Be thorough and comprehensive"]
      content_filters :=
        ["Include technical implementation details",
         "Provide code snippets and examples",
         "Reference relevant frameworks/libraries",
         "Include performance considerations",
         "Add debugging and testing guidance"]
      response_format :=
        ["Technical overview",
         "Implementation steps",
         "Code examples",
         "Best practices",
         "Common pitfalls to avoid"] }
  | .HR_SPECIALIST =>
    { system_prompt :=
        ["You are PersonaRAG acting as an HR Specialist assistant.",
         "Your task:",
         "1. Carefully understand the user's specific HR question.",
         "2. Identify the main HR topic (policy, benefits, compliance, employee relations, etc.).",
         "3. Answer the question using retrieved documents ONLY.",
         "4. Present the answer in an HR style:",
         "   - Empathetic and people-focused",
         "   - Policy-oriented and compliant",
         "   - Clear process explanations",
         "5. Do NOT reuse generic phrases.",
         "6. Ensure each answer is specific to the HR question asked.",
         "If documents do not contain the answer, clearly state that HR policy information is not available."]
      answer_style :=
        ["Empathetic and people-focused",
         "Policy-oriented and compliant",
         "Clear process explanations",
         "Include legal and compliance considerations",
         "Focus on fairness and consistency"]
      tone_guidelines :=
        ["Empathetic and understanding",
         "Compliance-focused and careful",
         "Clear and procedural",
         "Professional and supportive",
         "Risk-aware and cautious"]
      content_filters :=
        ["Include compliance and legal considerations",
         "Focus on people impact and experience",
         "Reference relevant policies and procedures",
         "Include privacy and confidentiality notes",
         "Emphasize fairness and consistency"]
      response_format :=
        ["Policy overview",
         "People impact assessment",
         "Compliance considerations",
         "Recommended actions",
         "Risk mitigation steps"] }
  | .STUDENT =>
    { system_prompt :=
        ["You are PersonaRAG acting as a Student-level assistant.",
         "Your task:",
         "1. Carefully understand the user's specific learning question.",
         "2. Identify the main learning topic (concept, process, technology, etc.).",
         "3. Answer the question using retrieved documents ONLY.",
         "4. Present the answer in a student style:",
         "   - Simple, accessible language",
         "   - Explain concepts from basics",
         "   - Use analogies and real-world examples",
         "5. Do NOT reuse generic phrases.",
         "6. Ensure each answer is specific to the learning question asked.",
         "If documents do not contain the answer, clearly state that learning information is not available."]
      answer_style :=
        ["Simple, accessible language",
         "Explain concepts from basics",
         "Use analogies and real-world examples",
         "Break down complex topics into steps",
         "Encourage learning and exploration"]
      tone_guidelines :=
        ["Patient and encouraging",
         "Educational and supportive",
         "Simple and clear",
         "Enthusiastic about learning",
         "Avoid overwhelming complexity"]
      content_filters :=
        ["Simplify complex concepts",
         "Add educational examples and analogies",
         "Explain technical terms in simple language",
         "Include step-by-step breakdowns",
         "Add learning resources or references"]
      response_format :=
        ["Simple concept introduction",
         "Step-by-step explanation",
         "Real-world example",
         "Practice exercise or question",
         "Additional learning resources"] }
  | .GENERAL =>
    { system_prompt :=
        ["You are PersonaRAG acting as a General-level assistant.",
         "Your task:",
         "1. Carefully understand the user's specific question.",
         "2. Identify the main topic (policy, technology, benefits, process, etc.).",
         "3. Answer the question using retrieved documents ONLY.",
         "4. Present the answer in a general style:",
         "   - Balanced and moderate detail",
         "   - Clear and accessible explanations",
         "   - Practical and useful information",
         "5. Do NOT reuse generic phrases.",
         "6. Ensure each answer is specific to the question asked.",
         "If documents do not contain the answer, clearly state that information is not available."]
      answer_style :=
        ["Balanced and moderate detail",
         "Clear and accessible explanations",
         "Broad appeal and understanding",
         "Practical and useful information",
         "Avoid extremes of simplicity or complexity"]
      tone_guidelines :=
        ["Balanced and neutral",
         "Clear and helpful",
         "Accessible and inclusive",
         "Practical and straightforward",
         "Friendly and approachable"]
      content_filters :=
        ["Balance technical and non-technical content",
         "Ensure broad accessibility",
         "Include practical applications",
         "Maintain clarity without oversimplifying",
         "Add context for better understanding"]
      response_format :=
        ["Clear introduction",
         "Main explanation",
         "Practical implications",
         "Key takeaways",
         "Additional context if needed"] }

/-- `RolePromptExtensions.build_dynamic_prompt`. -/
def build_dynamic_prompt (persona : PersonaType) : String :=
  let extension := role_extensions persona
  String.intercalate "\n"
    (["Current persona: " ++ persona.value, ""]
      ++ extension.system_prompt ++ [""]
      ++ ["Answer style:"] ++ extension.answer_style.map ("- " ++ ·) ++ [""]
      ++ ["Tone guidelines:"] ++ extension.tone_guidelines.map ("- " ++ ·) ++ [""]
      ++ ["Content filters:"] ++ extension.content_filters.map ("- " ++ ·) ++ [""]
      ++ ["Response format:"] ++ extension.response_format.map ("- " ++ ·))

/-! ### Prompt assembly (`prompt_builder.py`) -/

/-- `CompletePromptBuilder.build_master_system_prompt` (static text). -/
def build_master_system_prompt : String :=
  "You are PersonaRAG, a personalized knowledge assistant.\n\nYour task is to answer user questions by:\n1. Adapting your response to the user's active persona (role)\n2. Using only the provided retrieved documents as the knowledge source\n3. Matching the tone, depth, and explanation style of the persona\n4. Keeping answers clear, accurate, and relevant\n\nRules:\n- If persona is Executive: be concise, strategic, business-focused, no technical jargon.\n- If persona is Developer: be technical, precise, include examples or code if relevant.\n- If persona is HR Specialist: be empathetic, compliant, policy-oriented, and clear.\n- If persona is Student: explain in simple language with examples.\n- If persona is General: give a balanced, easy-to-understand answer.\n\nIf the answer is not found in the retrieved documents, clearly say:\n\"I don't have enough information from the available knowledge to answer this.\"\n\nDo NOT hallucinate.\nDo NOT use external knowledge."

/-- Round a rational to the nearest integer, ties to even (the rounding used
by Python's fixed-point float formatting; exact on the scores arising here). -/
def roundHalfEven (x : ℚ) : Int :=
  let f := x.floor
  let r := x - f
  if r < 1/2 then f else if 1/2 < r then f + 1 else if f % 2 = 0 then f else f + 1

/-- Python's `f"{score:.2f}"` on a (non-negative) score. -/
def formatScore2dp (q : ℚ) : String :=
  let n := roundHalfEven (q * 100)
  let whole := n / 100
  let frac := (n % 100).toNat
  toString whole ++ "." ++ (if frac < 10 then "0" else "") ++ toString frac

/-- `DocumentRetriever.build_rag_context`. -/
def build_rag_context (retrieval_result : RetrievalResult) : String :=
  if retrieval_result.documents.isEmpty then
    "No relevant documents found for this query."
  else
    String.intercalate "\n"
      (["Use the following retrieved documents to answer the question.",
        "These documents are selected specifically for the current persona.",
        "",
        "Retrieved Context:"]
      ++ (retrieval_result.documents.enumFrom 1).flatMap (fun p =>
          ["Document " ++ toString p.1 ++ ":",
           p.2.content,
           "[Relevance: " ++ formatScore2dp p.2.relevance_score ++ ", Type: "
             ++ p.2.doc_type.value ++ "]",
           ""])
      ++ ["Only use this context to generate the answer."])

/-- The metadata dict assembled by `build_complete_prompt`. -/
structure PromptMeta where
  persona : String
  question : String
  documents_retrieved : Nat
  retrieval_method : String
  prompt_length : Nat
  retrieved_doc_ids : List String
deriving DecidableEq, Repr

/-- `PromptComponents` dataclass of `prompt_builder.py`. -/
structure PromptComponents where
  master_system_prompt : String
  role_specific_prompt : String
  rag_context : String
  user_question : String
  metadata : PromptMeta
deriving DecidableEq, Repr

/-- The attribute access `retrieval_result.total_docs_found` performed by
`build_complete_prompt`: `RetrievalResult` declares no such field (its fields
are `documents`, `query`, `persona`, `total_retrieved`, `retrieval_metadata`),
so in Python the lookup raises `AttributeError`. -/
def RetrievalResult.total_docs_found (_ : RetrievalResult) :
    Except String Nat :=
  .error "AttributeError: 'RetrievalResult' object has no attribute 'total_docs_found'"

/-- The attribute access `retrieval_result.retrieval_method` performed by
`build_complete_prompt`: also not a field of `RetrievalResult`, so it raises
`AttributeError` as well (it is never reached, the `total_docs_found` access
raises first). -/
def RetrievalResult.retrieval_method (_ : RetrievalResult) :
    Except String String :=
  .error "AttributeError: 'RetrievalResult' object has no attribute 'retrieval_method'"

/-- `CompletePromptBuilder.build_complete_prompt`.  The builder's store is a
fresh `DocumentStore()` holding the sample corpus; `set_persona` only updates
`PersonaRAG.current_persona`, which nothing below reads, so the stateless
model omits it.  The metadata dict evaluates
`retrieval_result.total_docs_found` (then `retrieval_result.retrieval_method`),
which raise `AttributeError`, modelled with `Except`. -/
def build_complete_prompt (user_question : String) (persona : Persona) :
    Except String PromptComponents :=
  let master_prompt := build_master_system_prompt
  let role_prompt := build_dynamic_prompt (persona_mapping persona)
  let retrieval_result :=
    retrieve_documents sampleStore user_question persona.value 10
  let rag_context := build_rag_context retrieval_result
  let final_prompt := master_prompt ++ "\n\n" ++ role_prompt ++ "\n\n"
    ++ rag_context ++ "\n\nUser Question:\n" ++ user_question
  match retrieval_result.total_docs_found with
  | .error e => .error e
  | .ok documents_retrieved =>
    match retrieval_result.retrieval_method with
    | .error e => .error e
    | .ok method =>
      .ok { master_system_prompt := master_prompt
            role_specific_prompt := role_prompt
            rag_context := rag_context
            user_question := user_question
            metadata :=
              { persona := persona.value
                question := user_question
                documents_retrieved := documents_retrieved
                retrieval_method := method
                prompt_length := final_prompt.length
                retrieved_doc_ids :=
                  retrieval_result.documents.map Document.id } }

/-! ### Lemmas about the scorer's components -/

theorem queryCoverage_nonneg (terms : List (List Char)) (docLower : List Char) :
    0 ≤ queryCoverage terms docLower := by
  unfold queryCoverage
  positivity

theorem matchedDensity_nonneg (terms : List (List Char)) (docLower : List Char) :
    0 ≤ matchedDensity terms docLower := by
  unfold matchedDensity
  positivity

theorem topicBonus_nonneg (queryLower docLower : List Char) :
    0 ≤ topicBonus queryLower docLower := by
  unfold topicBonus
  repeat apply add_nonneg
  all_goals split <;> norm_num

theorem keywordBonus_foldl_nonneg (l : List String) (docLower : List Char)
    (acc : ℚ) (h : 0 ≤ acc) :
    0 ≤ l.foldl
      (fun acc kw =>
        if pyContains (pyLower (lc kw)) docLower then acc + 0.1 else acc)
      acc := by
  induction l generalizing acc with
  | nil => simpa using h
  | cons kw rest ih =>
    simp only [List.foldl_cons]
    apply ih
    split
    · have : (0 : ℚ) ≤ 0.1 := by norm_num
      linarith
    · exact h

theorem keywordBonus_nonneg (persona : String) (docLower : List Char) :
    0 ≤ keywordBonus persona docLower := by
  unfold keywordBonus
  exact keywordBonus_foldl_nonneg _ _ 0 le_rfl

theorem typeBonus_nonneg (persona : String) (docType : DocumentType) :
    0 ≤ typeBonus persona docType := by
  unfold typeBonus
  split <;> norm_num

/-- C5: for every document, query string and persona string, the relevance
score returned by `calculate_relevance` lies in the closed interval
`[0, 1]`. -/
theorem calculate_relevance_mem_unit_interval (document : Document)
    (query persona : String) :
    0 ≤ calculate_relevance document query persona
      ∧ calculate_relevance document query persona ≤ 1 := by
  unfold calculate_relevance
  dsimp only
  split_ifs
  · norm_num
  · norm_num
  · norm_num
  · norm_num
  · refine ⟨le_min ?_ (by norm_num), min_le_right _ _⟩
    have h1 := queryCoverage_nonneg
      (expandedTerms (queryTerms (pyLower (lc query)))) (pyLower (lc document.content))
    have h2 := matchedDensity_nonneg
      (expandedTerms (queryTerms (pyLower (lc query)))) (pyLower (lc document.content))
    have h3 := topicBonus_nonneg (pyLower (lc query)) (pyLower (lc document.content))
    have h4 := keywordBonus_nonneg persona (pyLower (lc document.content))
    have h5 := typeBonus_nonneg persona document.doc_type
    have h6 : (0:ℚ) ≤ 0.4 := by norm_num
    have h7 : (0:ℚ) ≤ 0.2 := by norm_num
    nlinarith [mul_nonneg h1 h6, mul_nonneg h2 h7]

/-- C4: with the candidate term set non-empty and the document non-empty, the
score is `0` exactly when `query_coverage < 0.3` or `matched_density < 0.01`,
and otherwise equals
`min (0.4*query_coverage + 0.2*matched_density + bonuses) 1`. -/
theorem calculate_relevance_formula (document : Document)
    (query persona : String)
    (hterms : (expandedTerms (queryTerms (pyLower (lc query)))).isEmpty = false)
    (hwords : docWordCount (pyLower (lc document.content)) ≠ 0) :
    calculate_relevance document query persona =
      if queryCoverage (expandedTerms (queryTerms (pyLower (lc query))))
            (pyLower (lc document.content)) < 0.3
          ∨ matchedDensity (expandedTerms (queryTerms (pyLower (lc query))))
            (pyLower (lc document.content)) < 0.01 then 0
      else
        min (0.4 * queryCoverage (expandedTerms (queryTerms (pyLower (lc query))))
              (pyLower (lc document.content))
            + 0.2 * matchedDensity (expandedTerms (queryTerms (pyLower (lc query))))
              (pyLower (lc document.content))
            + topicBonus (pyLower (lc query)) (pyLower (lc document.content))
            + keywordBonus persona (pyLower (lc document.content))
            + typeBonus persona document.doc_type) 1 := by
  unfold calculate_relevance
  dsimp only
  rw [hterms]
  simp only [Bool.false_eq_true, if_false]
  by_cases hc : queryCoverage (expandedTerms (queryTerms (pyLower (lc query))))
      (pyLower (lc document.content)) < 0.3
  · rw [if_pos hc, if_pos (Or.inl hc)]
  · rw [if_neg hc, if_neg hwords]
    by_cases hd : matchedDensity (expandedTerms (queryTerms (pyLower (lc query))))
        (pyLower (lc document.content)) < 0.01
    · rw [if_pos hd, if_pos (Or.inr hd)]
    · rw [if_neg hd, if_neg (by push_neg; push_neg at hc hd; exact ⟨hc, hd⟩ :
        ¬(queryCoverage (expandedTerms (queryTerms (pyLower (lc query))))
            (pyLower (lc document.content)) < 0.3
          ∨ matchedDensity (expandedTerms (queryTerms (pyLower (lc query))))
            (pyLower (lc document.content)) < 0.01))]
      congr 1
      ring

/-- Witness for `calculate_relevance_formula`: the sample remote-work-policy
document and the Scenario A query satisfy both hypotheses. -/
theorem calculate_relevance_formula_witness :
    (expandedTerms (queryTerms (pyLower (lc "What is the remote work policy?")))).isEmpty = false
    ∧ docWordCount (pyLower (lc policyDoc.content)) ≠ 0
    ∧ calculate_relevance policyDoc "What is the remote work policy?" "Executive" =
      (if queryCoverage (expandedTerms (queryTerms (pyLower (lc "What is the remote work policy?"))))
            (pyLower (lc policyDoc.content)) < 0.3
          ∨ matchedDensity (expandedTerms (queryTerms (pyLower (lc "What is the remote work policy?"))))
            (pyLower (lc policyDoc.content)) < 0.01 then 0
      else
        min (0.4 * queryCoverage (expandedTerms (queryTerms (pyLower (lc "What is the remote work policy?"))))
              (pyLower (lc policyDoc.content))
            + 0.2 * matchedDensity (expandedTerms (queryTerms (pyLower (lc "What is the remote work policy?"))))
              (pyLower (lc policyDoc.content))
            + topicBonus (pyLower (lc "What is the remote work policy?")) (pyLower (lc policyDoc.content))
            + keywordBonus "Executive" (pyLower (lc policyDoc.content))
            + typeBonus "Executive" policyDoc.doc_type) 1) :=
  ⟨by decide, by decide,
    calculate_relevance_formula policyDoc "What is the remote work policy?"
      "Executive" (by decide) (by decide)⟩

/-- C9: when the document has zero words (in particular when its content is
the empty string), `calculate_relevance` returns `0`; the early zero-word
return precedes the `matched_density` division, so that division is never
performed with a zero denominator. -/
theorem calculate_relevance_zero_words (document : Document)
    (query persona : String)
    (hwords : docWordCount (pyLower (lc document.content)) = 0) :
    calculate_relevance document query persona = 0 := by
  unfold calculate_relevance
  dsimp only
  simp [hwords]

/-- A document with empty content, exercising the zero-word branch. -/
def emptyDoc : Document where
  id := "empty_001"
  content := ""
  doc_type := .general
  metadata := []

/-- Witness for `calculate_relevance_zero_words`: the empty-content document
has zero words and scores `0`. -/
theorem calculate_relevance_zero_words_witness :
    docWordCount (pyLower (lc emptyDoc.content)) = 0
    ∧ calculate_relevance emptyDoc "What is the remote work policy?" "Executive" = 0 :=
  ⟨rfl, calculate_relevance_zero_words emptyDoc "What is the remote work policy?"
    "Executive" rfl⟩

/-! ### Lemmas about persona filtering -/

theorem mem_insertByScoreDesc {x d : Document} {l : List Document} :
    x ∈ insertByScoreDesc d l ↔ x = d ∨ x ∈ l := by
  induction l with
  | nil => simp [insertByScoreDesc]
  | cons e es ih =>
    unfold insertByScoreDesc
    split
    · simp [List.mem_cons]
    · simp only [List.mem_cons, ih]
      tauto

theorem mem_sortByScoreDesc {x : Document} {l : List Document} :
    x ∈ sortByScoreDesc l ↔ x ∈ l := by
  induction l with
  | nil => simp [sortByScoreDesc]
  | cons d ds ih =>
    unfold sortByScoreDesc
    rw [mem_insertByScoreDesc]
    simp [ih]

/-- Every document surviving `filter_documents` under a known persona passed
the per-document checks of the filtering loop. -/
theorem passes_of_mem_filter_documents {docs : List Document}
    {persona : String} {f : PersonaFilter} {doc : Document}
    (hf : persona_filters persona = some f)
    (hmem : doc ∈ filter_documents docs persona) :
    passesPersonaChecks f doc = true := by
  unfold filter_documents at hmem
  rw [hf] at hmem
  have h1 : doc ∈ sortByScoreDesc (docs.filter (passesPersonaChecks f)) :=
    List.take_subset _ _ hmem
  rw [mem_sortByScoreDesc] at h1
  exact (List.mem_filter.mp h1).2

/-- C6 (amended): under every known persona, a document whose type is not
preferred and whose relevance score is strictly below `0.7` never survives
`filter_documents`; the source's boundary admits a score of exactly `0.7`. -/
theorem filter_documents_rejects_nonpreferred_type
    (persona : String) (f : PersonaFilter)
    (hf : persona_filters persona = some f)
    (doc : Document) (docs : List Document)
    (htype : doc.doc_type ∉ f.preferred_types)
    (hscore : doc.relevance_score < 0.7) :
    doc ∉ filter_documents docs persona := by
  intro hmem
  have hp := passes_of_mem_filter_documents hf hmem
  unfold passesPersonaChecks at hp
  simp only [Bool.and_eq_true, Bool.not_eq_true', Bool.and_eq_false_iff,
    Bool.not_eq_false', decide_eq_false_iff_not, decide_eq_true_eq,
    not_not] at hp
  rcases hp.1.1 with h | h
  · exact htype h
  · exact h hscore

/-- A technical document scoring exactly `0.7`, not of an Executive-preferred
type and matching no Executive exclude-keyword. -/
def boundaryDoc : Document where
  id := "boundary_001"
  content := "hello world"
  doc_type := .technical
  metadata := []
  relevance_score := 0.7

/-- Counterexample to C6 as stated: `boundaryDoc`'s type is not preferred by
the Executive persona and its score is not strictly greater than `0.7`, yet
`filter_documents` keeps it (the source rejects only scores strictly below
`0.7`). -/
theorem filter_documents_boundary_counterexample :
    persona_filters "Executive" = some executiveFilter
    ∧ boundaryDoc.doc_type ∉ executiveFilter.preferred_types
    ∧ ¬(boundaryDoc.relevance_score > 0.7)
    ∧ boundaryDoc ∈ filter_documents [boundaryDoc] "Executive" := by
  refine ⟨rfl, by decide, by decide, ?_⟩
  decide

/-- Witness for `filter_documents_rejects_nonpreferred_type`: a technical
document scoring `0.5` is dropped for the Executive persona. -/
theorem filter_documents_rejects_nonpreferred_type_witness :
    persona_filters "Executive" = some executiveFilter
    ∧ ({ boundaryDoc with relevance_score := 0.5 } : Document).doc_type
        ∉ executiveFilter.preferred_types
    ∧ ({ boundaryDoc with relevance_score := 0.5 } : Document).relevance_score < 0.7
    ∧ { boundaryDoc with relevance_score := 0.5 }
        ∉ filter_documents [{ boundaryDoc with relevance_score := 0.5 }] "Executive" :=
  ⟨rfl, by decide, by decide,
    filter_documents_rejects_nonpreferred_type "Executive" executiveFilter rfl
      { boundaryDoc with relevance_score := 0.5 }
      [{ boundaryDoc with relevance_score := 0.5 }] (by decide) (by decide)⟩

/-- C7: under every known persona, a document whose (lowercased) content
contains one of the persona's (lowercased) exclude-keywords never survives
`filter_documents`, regardless of its relevance score. -/
theorem filter_documents_excludes_keyword_matches
    (persona : String) (f : PersonaFilter)
    (hf : persona_filters persona = some f)
    (kw : String) (hkw : kw ∈ f.exclude_keywords)
    (doc : Document)
    (hcontains : pyContains (pyLower (lc kw)) (pyLower (lc doc.content)) = true)
    (docs : List Document) :
    doc ∉ filter_documents docs persona := by
  intro hmem
  have hp := passes_of_mem_filter_documents hf hmem
  have hex : excludedByKeyword f doc = true := by
    unfold excludedByKeyword
    rw [List.any_eq_true]
    exact ⟨kw, hkw, hcontains⟩
  unfold passesPersonaChecks at hp
  rw [hex] at hp
  simp at hp

/-- A document mentioning "code", matched by the Executive exclude-keyword
list despite a perfect relevance score. -/
def excludedDoc : Document where
  id := "excluded_001"
  content := "Code review guidelines for the team."
  doc_type := .business
  metadata := []
  relevance_score := 1

/-- Witness for `filter_documents_excludes_keyword_matches`: the "code"
keyword knocks out `excludedDoc` for the Executive persona even at score
`1.0`. -/
theorem filter_documents_excludes_keyword_matches_witness :
    persona_filters "Executive" = some executiveFilter
    ∧ "code" ∈ executiveFilter.exclude_keywords
    ∧ pyContains (pyLower (lc "code")) (pyLower (lc excludedDoc.content)) = true
    ∧ excludedDoc ∉ filter_documents [excludedDoc] "Executive" :=
  ⟨rfl, by decide, by decide,
    filter_documents_excludes_keyword_matches "Executive" executiveFilter rfl
      "code" (by decide) excludedDoc (by decide) [excludedDoc]⟩

/-! ### Lemmas about the document store -/

/-- The store invariant maintained by the dict keyed on document id: keys are
unique and every entry's key is its document's id. -/
def storeWF (store : DocumentStore) : Prop :=
  (store.documents.map Prod.fst).Nodup
    ∧ ∀ p ∈ store.documents, p.1 = p.2.id

theorem dictSet_keys (m : List (String × Document)) (k : String) (v : Document) :
    (dictSet m k v).map Prod.fst =
      if k ∈ m.map Prod.fst then m.map Prod.fst else m.map Prod.fst ++ [k] := by
  induction m with
  | nil => simp [dictSet]
  | cons p rest ih =>
    obtain ⟨k0, v0⟩ := p
    unfold dictSet
    by_cases h : k0 = k
    · subst h
      simp
    · rw [if_neg h]
      simp only [List.map_cons, ih, List.mem_cons]
      have : ¬ k = k0 := fun hc => h hc.symm
      by_cases hm : k ∈ rest.map Prod.fst
      · simp [hm, this]
      · simp [hm, this]

theorem find?_dictSet (m : List (String × Document)) (k : String) (v : Document) :
    ((dictSet m k v).find? (fun p => decide (p.1 = k))).map Prod.snd = some v := by
  induction m with
  | nil => simp [dictSet]
  | cons p rest ih =>
    obtain ⟨k0, v0⟩ := p
    unfold dictSet
    by_cases h : k0 = k
    · subst h
      simp [List.find?]
    · rw [if_neg h]
      rw [List.find?_cons_of_neg _ (by simpa using h)]
      exact ih

theorem countP_dictSet (m : List (String × Document)) (k : String) (v : Document)
    (hnd : (m.map Prod.fst).Nodup) :
    (dictSet m k v).countP (fun p => decide (p.1 = k)) = 1 := by
  induction m with
  | nil => simp [dictSet]
  | cons p rest ih =>
    obtain ⟨k0, v0⟩ := p
    simp only [List.map_cons, List.nodup_cons] at hnd
    unfold dictSet
    by_cases h : k0 = k
    · subst h
      rw [if_pos rfl]
      rw [List.countP_cons_of_pos _ _ (by simp)]
      have hz : rest.countP (fun p => decide (p.1 = k0)) = 0 := by
        rw [List.countP_eq_zero]
        intro a ha
        simp only [decide_eq_true_eq]
        intro hak
        exact hnd.1 (hak ▸ List.mem_map_of_mem Prod.fst ha)
      omega
    · rw [if_neg h]
      rw [List.countP_cons_of_neg _ _ (by simpa using h)]
      exact ih hnd.2

theorem entries_dictSet (m : List (String × Document)) (d : Document)
    (h : ∀ p ∈ m, p.1 = p.2.id) :
    ∀ p ∈ dictSet m d.id d, p.1 = p.2.id := by
  induction m with
  | nil =>
    intro p hp
    simp only [dictSet, List.mem_singleton] at hp
    subst hp
    rfl
  | cons q rest ih =>
    obtain ⟨k0, v0⟩ := q
    unfold dictSet
    by_cases hk : k0 = d.id
    · subst hk
      rw [if_pos rfl]
      intro p hp
      rcases List.mem_cons.mp hp with hp | hp
      · subst hp; rfl
      · exact h p (List.mem_cons_of_mem _ hp)
    · rw [if_neg hk]
      intro p hp
      rcases List.mem_cons.mp hp with hp | hp
      · subst hp; exact h (k0, v0) (List.mem_cons_self _ _)
      · exact ih (fun q hq => h q (List.mem_cons_of_mem _ hq)) p hp

theorem nodup_keys_dictSet (m : List (String × Document)) (k : String)
    (v : Document) (hnd : (m.map Prod.fst).Nodup) :
    ((dictSet m k v).map Prod.fst).Nodup := by
  rw [dictSet_keys]
  by_cases hm : k ∈ m.map Prod.fst
  · simpa [hm] using hnd
  · rw [if_neg hm]
    simp [List.nodup_append, hnd, hm]

/-- C10: adding a document whose id is already stored silently replaces the
stored document: `get_document` then returns the new document, the unique-key
invariant is preserved, and `get_all_documents` holds exactly one document
with the added id. -/
theorem add_document_replaces (store : DocumentStore) (document : Document)
    (h : storeWF store) :
    get_document (add_document store document) document.id = some document
    ∧ storeWF (add_document store document)
    ∧ (get_all_documents (add_document store document)).countP
        (fun d => decide (d.id = document.id)) = 1 := by
  obtain ⟨hnd, hids⟩ := h
  refine ⟨?_, ⟨?_, ?_⟩, ?_⟩
  · exact find?_dictSet store.documents document.id document
  · exact nodup_keys_dictSet store.documents document.id document hnd
  · exact entries_dictSet store.documents document hids
  · unfold get_all_documents add_document
    rw [List.countP_map]
    rw [List.countP_congr (q := fun p => decide (p.1 = document.id))
      (fun p hp => by
        simp only [Function.comp_apply, decide_eq_true_eq]
        rw [entries_dictSet store.documents document hids p hp])]
    exact countP_dictSet store.documents document.id document hnd

/-- Witness for `add_document_replaces`: re-adding an updated remote-work
policy document to the freshly initialized sample store. -/
theorem add_document_replaces_witness :
    storeWF sampleStore
    ∧ get_document
        (add_document sampleStore { policyDoc with content := "Updated policy." })
        "policy_001" = some { policyDoc with content := "Updated policy." } :=
  ⟨⟨by decide, by decide⟩,
    (add_document_replaces sampleStore { policyDoc with content := "Updated policy." }
      ⟨by decide, by decide⟩).1⟩

/-! ### Lemmas about retrieval results -/

theorem retrieve_documents_of_scored_empty (store : DocumentStore)
    (query persona : String) (top_k : Nat)
    (h : scoredDocs store query persona = []) :
    retrieve_documents store query persona top_k =
      { documents := []
        query := query
        persona := persona
        total_retrieved := 0
        retrieval_metadata := .reason "no_relevant_documents" } := by
  unfold retrieve_documents
  rw [h]
  rfl

/-- C8 (amended): when no document scores above the `0.1` floor the result
carries the `"no_relevant_documents"` reason code — in particular the
no-match query `"zzqqxx nonsense unmatched"` does so for every persona and
every `top_k`; but an empty `documents` list can also arise from persona
filtering or truncation of a non-empty scored set, in which case the
metadata is `avg_relevance 0` instead of the reason code. -/
theorem retrieve_documents_empty_metadata :
    (∀ (store : DocumentStore) (query persona : String) (top_k : Nat),
      scoredDocs store query persona = [] →
      retrieve_documents store query persona top_k =
        { documents := []
          query := query
          persona := persona
          total_retrieved := 0
          retrieval_metadata := .reason "no_relevant_documents" })
    ∧ (∀ (persona : String) (top_k : Nat),
      retrieve_documents sampleStore "zzqqxx nonsense unmatched" persona top_k =
        { documents := []
          query := "zzqqxx nonsense unmatched"
          persona := persona
          total_retrieved := 0
          retrieval_metadata := .reason "no_relevant_documents" }) :=
  ⟨retrieve_documents_of_scored_empty, fun _ _ => rfl⟩

/-- Witness for `retrieve_documents_empty_metadata`: an empty store has an
empty scored set, and retrieval over it reports the reason code. -/
theorem retrieve_documents_empty_metadata_witness :
    scoredDocs ⟨[]⟩ "any query" "Executive" = []
    ∧ retrieve_documents ⟨[]⟩ "any query" "Executive" 10 =
      { documents := []
        query := "any query"
        persona := "Executive"
        total_retrieved := 0
        retrieval_metadata := .reason "no_relevant_documents" } :=
  ⟨rfl, retrieve_documents_empty_metadata.1 ⟨[]⟩ "any query" "Executive" 10 rfl⟩

/-- Counterexample to C8 as stated: with `top_k = 0` and a query that does
match documents, the documents list is empty yet the metadata is
`avg_relevance 0`, not the `"no_relevant_documents"` reason code. -/
theorem retrieve_documents_empty_without_reason :
    (retrieve_documents sampleStore "What is the remote work policy?"
        "Executive" 0).documents = []
    ∧ (retrieve_documents sampleStore "What is the remote work policy?"
        "Executive" 0).retrieval_metadata = .avg_relevance 0
    ∧ (RetrievalMetadata.avg_relevance 0
        ≠ .reason "no_relevant_documents") := by
  refine ⟨by decide, by decide, by decide⟩

/-! ### Scenario evaluations on the sample corpus -/

/-- Counterexample to C2 as stated: for Scenario A's query under the
Executive persona, the top-ranked document is the business-trends document
`trends_001` (its `risk` keyword bonus edges out the remote-work policy),
not `policy_001`. -/
theorem scenarioA_top_is_trends :
    (retrieve_documents sampleStore "What is the remote work policy?"
        "Executive" 10).documents.map Document.id = ["trends_001", "policy_001"]
    ∧ ((retrieve_documents sampleStore "What is the remote work policy?"
        "Executive" 10).documents.head?.map Document.id ≠ some "policy_001") := by
  constructor
  · decide
  · decide

/-- C2 (amended): Scenario A's result is non-empty, contains the remote-work
policy document in second position behind `trends_001`, and its average
relevance `251/570 ≈ 0.44` exceeds `0.3`. -/
theorem scenarioA_result :
    (retrieve_documents sampleStore "What is the remote work policy?"
        "Executive" 10).documents.map Document.id = ["trends_001", "policy_001"]
    ∧ (retrieve_documents sampleStore "What is the remote work policy?"
        "Executive" 10).retrieval_metadata = .avg_relevance (251/570)
    ∧ ((3:ℚ)/10 < 251/570) := by
  refine ⟨by decide, by decide, by norm_num⟩

/-- C3: for Scenario B's query, the `"does"` token (absent from the stop-word
list) and its `"doe"` variant dilute the query coverage of the authentication
document to `1/4 < 0.3`, so `calculate_relevance` hard-cuts it (and every
other document) to `0` under every persona involved, and retrieval returns
the empty no-match result instead of ranking `tech_001` first. -/
theorem scenarioB_authentication_scores_zero :
    queryCoverage
        (expandedTerms (queryTerms (pyLower
          (lc "How does the authentication system work?"))))
        (pyLower (lc techDoc.content)) = 1/4
    ∧ calculate_relevance techDoc "How does the authentication system work?"
        "Developer" = 0
    ∧ calculate_relevance techDoc "How does the authentication system work?"
        "HR Specialist" = 0
    ∧ retrieve_documents sampleStore "How does the authentication system work?"
        "Developer" 10 =
      { documents := []
        query := "How does the authentication system work?"
        persona := "Developer"
        total_retrieved := 0
        retrieval_metadata := .reason "no_relevant_documents" } := by
  refine ⟨by decide, by decide, by decide, by decide⟩

/-! ### The prompt-assembly entry point always raises -/

/-- C1: `build_complete_prompt` never returns a `PromptComponents` value: for
every question and persona it raises `AttributeError`, because its metadata
dict reads `retrieval_result.total_docs_found`, which is not a field of
`RetrievalResult` (the dataclass defines `total_retrieved`).  The
`retrieve_documents` entry point itself is total and returns a well-defined
`RetrievalResult`. -/
theorem build_complete_prompt_always_raises (user_question : String)
    (persona : Persona) :
    build_complete_prompt user_question persona =
      .error "AttributeError: 'RetrievalResult' object has no attribute 'total_docs_found'" :=
  rfl
